import Mathlib

/-!
Verification development for the `redislock` package: a pessimistic lock on
top of Redis.  The repository has two versions of the one source file
(`src/redislock.go` and `src/unnamed/part_000`); they share the data model
and differ only in the `lockTimeout` constant and in how `tryLock` arranges
its conditionals.  The Redis store is embedded as a partial map from keys to
string values, and a single network interaction (`redis.Conn.Do`) either
delivers the command to the store or fails with a communication error.
-/

namespace Redislock

/-- The Redis store as the lock manager sees it: a partial map from keys to
string values.  `SET key value EX ttl NX` and the unlock script are the only
commands issued, so expiry bookkeeping is not part of the state; the TTL an
acquisition sends is recorded in the command it issues. -/
abbrev Store := String → Option String

/-- A reply delivered by the Redis server: a simple/bulk string (the `OK` of
a successful `SET`), the nil reply (a `SET .. NX` whose condition failed), or
an integer (what the unlock script returns). -/
inductive RedisReply where
  | simple (s : String)
  | nil
  | int (n : Int)
deriving DecidableEq

/-- Errors of the `redigo` client as the package distinguishes them:
`redis.ErrNil` (returned by `redis.String` on a nil reply) and any other
error (connectivity, protocol, timeout), carried with its message. -/
inductive RErr where
  | errNil
  | other (e : String)
deriving DecidableEq

/-- The raw outcome of one `conn.Do` call: the server's reply, or a
communication failure. -/
inductive DoResult where
  | reply (r : RedisReply)
  | failure (e : String)
deriving DecidableEq

/-- One network interaction with the store: the command is either delivered
(and the store executes it atomically) or the interaction fails with error
`e` and the store is unchanged. -/
inductive Comm where
  | deliver
  | fail (e : String)
deriving DecidableEq

/-- `redis.String`: converts a `Do` outcome to `(string, error)`.  A nil
reply becomes `redis.ErrNil`; a communication failure is passed through; an
integer reply is not a string (not reachable from `tryLock`'s `SET`). -/
def redisString : DoResult → String × Option RErr
  | DoResult.failure e => ("", some (RErr.other e))
  | DoResult.reply RedisReply.nil => ("", some RErr.errNil)
  | DoResult.reply (RedisReply.simple s) => (s, none)
  | DoResult.reply (RedisReply.int _) => ("", some (RErr.other "unexpected type"))

/-- `Lock` of `src/redislock.go` lines 42-46: resource identifier and the
minted token.  The `conn` field is the external connection, embedded as the
`Comm` outcome passed to each operation. -/
structure Lock where
  resource : String
  token : String
deriving DecidableEq

/-- `Lock.key` (`src/redislock.go` lines 68-70):
`fmt.Sprintf("redislock:%s", lock.resource)`. -/
def key (resource : String) : String := "redislock:" ++ resource

/-- Nanoseconds in `time.Second` (Go durations are counts of nanoseconds;
every duration here is positive, so Go's `int64` division agrees with `Nat`
division). -/
def second : Nat := 1000000000

/-- Nanoseconds in `time.Minute`. -/
def minute : Nat := 60 * second

/-- `lockTimeout` of `src/redislock.go` line 30: `10 * time.Minute`. -/
def lockTimeout : Nat := 10 * minute

/-- The TTL argument `int64(lockTimeout/time.Second)` sent with the `SET`. -/
def lockTimeoutSeconds : Nat := lockTimeout / second

/-- The `SET` command `tryLock` issues: key, value, `EX` seconds, `NX`. -/
structure SetCmd where
  key : String
  value : String
  ex : Nat
  nx : Bool
deriving DecidableEq

/-- The command `lock.tryLock` builds:
`SET lock.key() lock.token EX int64(lockTimeout/time.Second) NX`. -/
def setCmdOf (lock : Lock) : SetCmd :=
  { key := key lock.resource
    value := lock.token
    ex := lockTimeoutSeconds
    nx := true }

/-- The store executing `SET key value EX ttl NX`: sets the key only when it
is absent and replies `OK`; replies nil when the key already exists. -/
def execSet (st : Store) (cmd : SetCmd) : Store × RedisReply :=
  if st cmd.key = none then
    (fun k => if k = cmd.key then some cmd.value else st k, RedisReply.simple "OK")
  else
    (st, RedisReply.nil)

/-- `lock.conn.Do("SET", ...)`: one round trip that either delivers the
command or fails leaving the store unchanged. -/
def connDoSet (st : Store) (c : Comm) (cmd : SetCmd) : Store × DoResult :=
  match c with
  | Comm.deliver =>
      let r := execSet st cmd
      (r.1, DoResult.reply r.2)
  | Comm.fail e => (st, DoResult.failure e)

/-- The result mapping of `tryLock` in `src/redislock.go` lines 48-60: `ok`
starts false; `err == redis.ErrNil` is cleared to nil; otherwise
`err == nil && status == "OK"` sets `ok`; anything else falls through. -/
def tryLockMap (status : String) (err : Option RErr) : Bool × Option RErr :=
  if err = some RErr.errNil then
    (false, none)
  else if err = none ∧ status = "OK" then
    (true, err)
  else
    (false, err)

/-- `Lock.tryLock` (`src/redislock.go` lines 48-60): issue the conditional
`SET`, convert the reply with `redis.String`, map `(status, err)` to
`(ok, err)`. -/
def tryLock (st : Store) (c : Comm) (lock : Lock) : Store × Bool × Option RErr :=
  let r := connDoSet st c (setCmdOf lock)
  let s := redisString r.2
  let m := tryLockMap s.1 s.2
  (r.1, m.1, m.2)

/-- What `TryLock` returns, together with the store it leaves behind. -/
structure TryLockResult where
  store : Store
  lock : Option Lock
  ok : Bool
  err : Option RErr

/-- `TryLock` (`src/redislock.go` lines 73-83): build `&Lock{resource,
uuid.New(), conn}`, run `tryLock`, and null the lock unless `ok && err ==
nil`.  The freshly minted token `uuid.New()` is external input, passed as
the `token` argument. -/
def TryLock (st : Store) (c : Comm) (resource token : String) : TryLockResult :=
  let lock : Lock := { resource := resource, token := token }
  let r := tryLock st c lock
  { store := r.1
    lock := if !r.2.1 || (r.2.2).isSome then none else some lock
    ok := r.2.1
    err := r.2.2 }

/-- The arguments `Unlock` hands to `unlockScript.Do`: `KEYS[1]` and
`ARGV[1]`. -/
structure DelCmd where
  key : String
  token : String
deriving DecidableEq

/-- The script invocation `unlockScript.Do(lock.conn, lock.key(),
lock.token)` builds. -/
def delCmdOf (lock : Lock) : DelCmd :=
  { key := key lock.resource, token := lock.token }

/-- The store executing `unlockScript` (`src/redislock.go` lines 32-39)
atomically: if the current value at `KEYS[1]` equals `ARGV[1]`, delete the
key and return `del`'s count; otherwise return 0. -/
def execUnlockScript (st : Store) (cmd : DelCmd) : Store × RedisReply :=
  if st cmd.key = some cmd.token then
    (fun k => if k = cmd.key then none else st k, RedisReply.int 1)
  else
    (st, RedisReply.int 0)

/-- `unlockScript.Do`: one round trip that either delivers the script to the
store or fails leaving the store unchanged. -/
def connDoScript (st : Store) (c : Comm) (cmd : DelCmd) : Store × DoResult :=
  match c with
  | Comm.deliver =>
      let r := execUnlockScript st cmd
      (r.1, DoResult.reply r.2)
  | Comm.fail e => (st, DoResult.failure e)

/-- The error `Unlock` extracts from the `Do` outcome (the reply itself is
discarded by `_, err = ...`). -/
def doErr : DoResult → Option RErr
  | DoResult.failure e => some (RErr.other e)
  | DoResult.reply _ => none

/-- What `Unlock` returns, together with the store it leaves behind. -/
structure UnlockResult where
  store : Store
  err : Option RErr

/-- `Lock.Unlock` (`src/redislock.go` lines 63-66): run the unlock script
with the lock's key and token, return only the error. -/
def Unlock (st : Store) (c : Comm) (lock : Lock) : UnlockResult :=
  let r := connDoScript st c (delCmdOf lock)
  { store := r.1, err := doErr r.2 }

/-- One `Unlock` call in state-passing form.  The Go method receives the
`Lock` by pointer and assigns none of its fields, so the receiver after the
call is the receiver before it. -/
def UnlockStep (st : Store) (c : Comm) (lock : Lock) : UnlockResult × Lock :=
  (Unlock st c lock, lock)

/-- Repeated `Unlock` calls on the same lock, threading the store and the
receiver. -/
def unlockIter : Nat → Store → Lock → Store × Lock
  | 0, st, l => (st, l)
  | n + 1, st, l =>
      let r := UnlockStep st Comm.deliver l
      unlockIter n r.1.store r.2

/-- Modelled from the spec: `uuid.New()` of the external `go-uuid` library
mints "a randomly generated, globally-unique identity ... minted fresh on
every acquisition attempt".  The generator is embedded as an oracle `uuid`
indexed by the call counter; `TryLockAt uuid n` is the `n`-th `TryLock`
call of the process, which mints `uuid n`.  Global uniqueness of the
minted identities is the hypothesis that the oracle is injective. -/
def TryLockAt (uuid : Nat → String) (n : Nat) (st : Store) (c : Comm)
    (resource : String) : TryLockResult :=
  TryLock st c resource (uuid n)

/-- A concrete injective token oracle, used to instantiate theorems that
assume an injective `uuid` generator. -/
def unaryToken (n : Nat) : String := String.mk (List.replicate n 'a')

end Redislock

namespace RedislockV2

open Redislock

/-- `lockTimeout` of `src/unnamed/part_000` line 27: `60 * time.Second`. -/
def lockTimeout : Nat := 60 * Redislock.second

/-- The TTL argument `int64(lockTimeout/time.Second)` of the second
version. -/
def lockTimeoutSeconds : Nat := lockTimeout / Redislock.second

/-- The `SET` command the second version's `tryLock` builds; only the `EX`
argument differs from the first version's. -/
def setCmdOf (lock : Lock) : SetCmd :=
  { key := key lock.resource
    value := lock.token
    ex := lockTimeoutSeconds
    nx := true }

/-- The result mapping of `tryLock` in `src/unnamed/part_000` lines 45-56:
early return `(false, nil)` on `redis.ErrNil`, early return `(false, err)`
on any other error, else `(status == "OK", nil)`. -/
def tryLockMap (status : String) (err : Option RErr) : Bool × Option RErr :=
  if err = some RErr.errNil then
    (false, none)
  else if err ≠ none then
    (false, err)
  else
    (status == "OK", none)

/-- `Lock.tryLock` of the second version. -/
def tryLock (st : Store) (c : Comm) (lock : Lock) : Store × Bool × Option RErr :=
  let r := connDoSet st c (setCmdOf lock)
  let s := redisString r.2
  let m := tryLockMap s.1 s.2
  (r.1, m.1, m.2)

/-- `TryLock` of the second version (`src/unnamed/part_000` lines 69-78),
identical text to the first version's but calling this version's
`tryLock`. -/
def TryLock (st : Store) (c : Comm) (resource token : String) : TryLockResult :=
  let lock : Lock := { resource := resource, token := token }
  let r := tryLock st c lock
  { store := r.1
    lock := if !r.2.1 || (r.2.2).isSome then none else some lock
    ok := r.2.1
    err := r.2.2 }

end RedislockV2

namespace Redislock

/-! ### Helper lemmas -/

/-- Evaluation of a delivered `TryLock` when the key is absent. -/
theorem TryLock_deliver_absent (st : Store) (r t : String) (h : st (key r) = none) :
    TryLock st Comm.deliver r t =
      { store := fun k => if k = key r then some t else st k
        lock := some { resource := r, token := t }
        ok := true
        err := none } := by
  simp [TryLock, tryLock, connDoSet, execSet, setCmdOf, redisString, tryLockMap, h]

/-- Evaluation of a delivered `TryLock` when the key is present. -/
theorem TryLock_deliver_present (st : Store) (r t : String) (h : st (key r) ≠ none) :
    TryLock st Comm.deliver r t =
      { store := st, lock := none, ok := false, err := none } := by
  simp [TryLock, tryLock, connDoSet, execSet, setCmdOf, redisString, tryLockMap, h]

/-- Evaluation of a delivered `Unlock`: delete exactly when the stored value
is the lock's token, and never an error. -/
theorem Unlock_deliver_eq (st : Store) (l : Lock) :
    Unlock st Comm.deliver l =
      { store :=
          if st (key l.resource) = some l.token then
            fun k => if k = key l.resource then none else st k
          else st
        err := none } := by
  unfold Unlock connDoScript execUnlockScript delCmdOf doErr
  by_cases h : st (key l.resource) = some l.token <;> simp [h]

/-- After one delivered `Unlock`, the lock's key no longer stores its
token. -/
theorem Unlock_deliver_not_held (st : Store) (l : Lock) :
    (Unlock st Comm.deliver l).store (key l.resource) ≠ some l.token := by
  rw [Unlock_deliver_eq]
  by_cases h : st (key l.resource) = some l.token <;> simp [h]

end Redislock

namespace Redislock

/-! ### Claim theorems -/

/-- Claim C2.  Release stale-safety and error channel: `Unlock` issues one
compare-and-delete of the lock's key against its token; it returns a non-nil
error exactly when the store interaction itself fails (and then the store is
unchanged); when the key's current value differs from the token or the key
is absent, nothing is deleted and the error is nil; a second `Unlock`
returns nil error again and leaves the store as the first left it. -/
theorem unlock_release_spec (st : Store) (l : Lock) (e : String) :
    (Unlock st (Comm.fail e) l).err = some (RErr.other e)
  ∧ (Unlock st (Comm.fail e) l).store = st
  ∧ (Unlock st Comm.deliver l).err = none
  ∧ (st (key l.resource) ≠ some l.token → (Unlock st Comm.deliver l).store = st)
  ∧ (Unlock (Unlock st Comm.deliver l).store Comm.deliver l).err = none
  ∧ (Unlock (Unlock st Comm.deliver l).store Comm.deliver l).store
      = (Unlock st Comm.deliver l).store := by
  refine ⟨rfl, rfl, ?_, ?_, ?_, ?_⟩
  · rw [Unlock_deliver_eq]
  · intro h
    rw [Unlock_deliver_eq]
    simp [h]
  · rw [Unlock_deliver_eq ((Unlock st Comm.deliver l).store) l]
  · rw [Unlock_deliver_eq ((Unlock st Comm.deliver l).store) l]
    simp [Unlock_deliver_not_held st l]

/-- Claim C3.  Acquire busy outcome: when the key already exists, the store
answers the conditional `SET` with the nil reply and `TryLock` returns a nil
lock, `acquired = false` and a nil error; the condition-failed reply is
never surfaced as an error. -/
theorem trylock_busy (st : Store) (r t : String) (h : st (key r) ≠ none) :
    TryLock st Comm.deliver r t =
      { store := st, lock := none, ok := false, err := none } :=
  TryLock_deliver_present st r t h

/-- Witness for C3 at a store that holds every key. -/
theorem trylock_busy_witness :
    TryLock (fun _ => some "v") Comm.deliver "a" "t" =
      { store := fun _ => some "v", lock := none, ok := false, err := none } :=
  trylock_busy (fun _ => some "v") "a" "t" (by decide)

/-- Claim C4.  Acquire success outcome and Lock creation: `TryLock` returns
a non-nil lock exactly when `ok = true` and the error is nil; `ok = true`
exactly when the conditional set succeeded (the command was delivered and
the key was absent); and a non-nil lock carries exactly the given resource
and the token minted for this call. -/
theorem trylock_lock_creation (st : Store) (c : Comm) (r t : String) :
    ((TryLock st c r t).lock ≠ none ↔
        ((TryLock st c r t).ok = true ∧ (TryLock st c r t).err = none))
  ∧ ((TryLock st c r t).ok = true ↔ (c = Comm.deliver ∧ st (key r) = none))
  ∧ ((TryLock st c r t).lock ≠ none →
        (TryLock st c r t).lock = some { resource := r, token := t }) := by
  cases c with
  | deliver =>
      by_cases h : st (key r) = none
      · rw [TryLock_deliver_absent st r t h]
        simp [h]
      · rw [TryLock_deliver_present st r t h]
        simp [h]
  | fail e =>
      simp [TryLock, tryLock, connDoSet, redisString, tryLockMap]

/-- Claim C5.  Store-error propagation on acquire: when the single store
interaction fails with a communication error, `TryLock` returns a nil lock,
`acquired = false` and that error unmodified, and the store is unchanged
(no retry happens: the call performs exactly this one interaction). -/
theorem trylock_store_error (st : Store) (r t e : String) :
    TryLock st (Comm.fail e) r t =
      { store := st, lock := none, ok := false, err := some (RErr.other e) } := rfl

end Redislock

namespace Redislock

/-- The token oracle `unaryToken` is injective. -/
theorem unaryToken_injective : Function.Injective unaryToken := by
  intro a b hab
  simpa [unaryToken] using congrArg (fun s => s.data.length) hab

/-- `key` is injective: distinct resources use distinct store keys. -/
theorem key_injective {r₁ r₂ : String} (h : key r₁ = key r₂) : r₁ = r₂ := by
  have hd := congrArg String.data h
  simp only [key, String.data_append] at hd
  exact String.ext (List.append_cancel_left hd)

/-- A lock returned by `TryLock` carries exactly the resource and token of
the call. -/
theorem TryLock_lock_eq (st : Store) (c : Comm) (r t : String) (l : Lock)
    (hl : (TryLock st c r t).lock = some l) : l = { resource := r, token := t } := by
  cases c with
  | deliver =>
      by_cases h : st (key r) = none
      · rw [TryLock_deliver_absent st r t h] at hl
        simpa [eq_comm] using hl
      · rw [TryLock_deliver_present st r t h] at hl
        simp at hl
  | fail e =>
      simp [TryLock, tryLock, connDoSet, redisString, tryLockMap] at hl

/-- The `Unlock` receiver is unchanged by any number of `Unlock` calls. -/
theorem unlockIter_snd (n : Nat) : ∀ (st : Store) (l : Lock), (unlockIter n st l).2 = l := by
  induction n with
  | zero => intro st l; rfl
  | succ m ih =>
      intro st l
      simp only [unlockIter, UnlockStep]
      exact ih _ l

end Redislock

namespace RedislockV2

open Redislock

/-- Evaluation of the second version's delivered `TryLock` when the key is
absent. -/
theorem tryLockV2_deliver_absent (st : Store) (r t : String) (h : st (key r) = none) :
    RedislockV2.TryLock st Comm.deliver r t =
      { store := fun k => if k = key r then some t else st k
        lock := some { resource := r, token := t }
        ok := true
        err := none } := by
  simp [RedislockV2.TryLock, RedislockV2.tryLock, connDoSet, execSet,
    RedislockV2.setCmdOf, redisString, RedislockV2.tryLockMap, h]

/-- Evaluation of the second version's delivered `TryLock` when the key is
present. -/
theorem tryLockV2_deliver_present (st : Store) (r t : String) (h : st (key r) ≠ none) :
    RedislockV2.TryLock st Comm.deliver r t =
      { store := st, lock := none, ok := false, err := none } := by
  simp [RedislockV2.TryLock, RedislockV2.tryLock, connDoSet, execSet,
    RedislockV2.setCmdOf, redisString, RedislockV2.tryLockMap, h]

end RedislockV2

namespace Redislock

/-- Claim C1.  Mutual exclusion: two acquisition calls racing for the same
resource against a store in which the key is absent are serialized by the
store's atomic conditional set; whichever lands first acquires (true lock
carrying its token, nil error) and the other fails with `acquired = false`
and nil error; afterwards the key stores exactly the winner's token, so the
winner is the unique current holder and (the tokens being distinct) the two
locks cannot both be holders. -/
theorem mutual_exclusion_race (st : Store) (r t₁ t₂ : String)
    (h : st (key r) = none) (hne : t₁ ≠ t₂) :
    (TryLock st Comm.deliver r t₁).ok = true
  ∧ (TryLock st Comm.deliver r t₁).err = none
  ∧ (TryLock st Comm.deliver r t₁).lock = some { resource := r, token := t₁ }
  ∧ (TryLock (TryLock st Comm.deliver r t₁).store Comm.deliver r t₂).ok = false
  ∧ (TryLock (TryLock st Comm.deliver r t₁).store Comm.deliver r t₂).err = none
  ∧ (TryLock (TryLock st Comm.deliver r t₁).store Comm.deliver r t₂).lock = none
  ∧ (TryLock (TryLock st Comm.deliver r t₁).store Comm.deliver r t₂).store (key r)
      = some t₁
  ∧ (TryLock (TryLock st Comm.deliver r t₁).store Comm.deliver r t₂).store (key r)
      ≠ some t₂ := by
  have h1 : ((fun k => if k = key r then some t₁ else st k) : Store) (key r) ≠ none := by
    simp
  simp only [TryLock_deliver_absent st r t₁ h,
    TryLock_deliver_present (fun k => if k = key r then some t₁ else st k) r t₂ h1]
  simp [hne]

/-- Witness for C1: two tokens racing for resource `"a"` on the empty
store. -/
theorem mutual_exclusion_race_witness :
    (TryLock (fun _ => none) Comm.deliver "a" "x").ok = true
  ∧ (TryLock (fun _ => none) Comm.deliver "a" "x").err = none
  ∧ (TryLock (fun _ => none) Comm.deliver "a" "x").lock
      = some { resource := "a", token := "x" }
  ∧ (TryLock (TryLock (fun _ => none) Comm.deliver "a" "x").store Comm.deliver "a" "y").ok
      = false
  ∧ (TryLock (TryLock (fun _ => none) Comm.deliver "a" "x").store Comm.deliver "a" "y").err
      = none
  ∧ (TryLock (TryLock (fun _ => none) Comm.deliver "a" "x").store Comm.deliver "a" "y").lock
      = none
  ∧ (TryLock (TryLock (fun _ => none) Comm.deliver "a" "x").store Comm.deliver "a"
        "y").store (key "a") = some "x"
  ∧ (TryLock (TryLock (fun _ => none) Comm.deliver "a" "x").store Comm.deliver "a"
        "y").store (key "a") ≠ some "y" :=
  mutual_exclusion_race (fun _ => none) "a" "x" "y" rfl (by decide)

/-- Claim C6.  Key namespacing: the store key is the fixed prefix
`"redislock"`, a colon, and the resource; the key function is injective, and
an acquisition or release for one resource leaves the key of every other
resource untouched, so distinct resources never contend. -/
theorem key_namespacing (st : Store) (r₁ r₂ t : String) (h : r₁ ≠ r₂) :
    key r₁ = "redislock" ++ ":" ++ r₁
  ∧ key r₁ ≠ key r₂
  ∧ (TryLock st Comm.deliver r₁ t).store (key r₂) = st (key r₂)
  ∧ (Unlock st Comm.deliver { resource := r₁, token := t }).store (key r₂)
      = st (key r₂) := by
  have hk : key r₂ ≠ key r₁ := fun hk => h (key_injective hk).symm
  refine ⟨rfl, fun hk => h (key_injective hk), ?_, ?_⟩
  · by_cases h1 : st (key r₁) = none
    · rw [TryLock_deliver_absent st r₁ t h1]
      simp [hk]
    · rw [TryLock_deliver_present st r₁ t h1]
  · rw [Unlock_deliver_eq]
    by_cases h2 : st (key r₁) = some t <;> simp [h2, hk]

/-- Witness for C6 at resources `"a"` and `"b"` on the empty store. -/
theorem key_namespacing_witness :
    key "a" = "redislock" ++ ":" ++ "a"
  ∧ key "a" ≠ key "b"
  ∧ (TryLock (fun _ => none) Comm.deliver "a" "t").store (key "b")
      = (fun _ => none : Store) (key "b")
  ∧ (Unlock (fun _ => none) Comm.deliver { resource := "a", token := "t" }).store (key "b")
      = (fun _ => none : Store) (key "b") :=
  key_namespacing (fun _ => none) "a" "b" "t" (by decide)

end Redislock

namespace Redislock

/-- Claim C7.  Token freshness and uniqueness: the `n`-th acquisition call
mints the oracle's `n`-th identity, so any lock it returns carries exactly
that token (whatever the resource — the token is never derived from it);
the oracle being injective, distinct calls mint distinct tokens; in
particular two successive successful acquisitions of the same resource,
with a release between them, produce locks with different tokens. -/
theorem token_freshness (uuid : Nat → String) (huuid : Function.Injective uuid)
    (st : Store) (r : String) (h : st (key r) = none) :
    (∀ (n : Nat) (st' : Store) (c : Comm) (r' : String) (l : Lock),
        (TryLockAt uuid n st' c r').lock = some l →
          l.token = uuid n ∧ l.resource = r')
  ∧ (∀ i j : Nat, i ≠ j → uuid i ≠ uuid j)
  ∧ (TryLockAt uuid 0 st Comm.deliver r).lock = some { resource := r, token := uuid 0 }
  ∧ (TryLockAt uuid 1
        (Unlock (TryLockAt uuid 0 st Comm.deliver r).store Comm.deliver
          { resource := r, token := uuid 0 }).store
        Comm.deliver r).lock = some { resource := r, token := uuid 1 } := by
  refine ⟨?_, ?_, ?_, ?_⟩
  · intro n st' c r' l hl
    have he := TryLock_lock_eq st' c r' (uuid n) l hl
    exact ⟨by rw [he], by rw [he]⟩
  · intro i j hij he
    exact hij (huuid he)
  · rw [TryLockAt, TryLock_deliver_absent st r (uuid 0) h]
  · simp only [TryLockAt]
    rw [TryLock_deliver_absent st r (uuid 0) h]
    rw [Unlock_deliver_eq]
    simp only []
    rw [TryLock_deliver_absent _ r (uuid 1) (by simp)]

/-- Witness for C7 with the concrete injective oracle `unaryToken` on the
empty store. -/
theorem token_freshness_witness :
    (∀ (n : Nat) (st' : Store) (c : Comm) (r' : String) (l : Lock),
        (TryLockAt unaryToken n st' c r').lock = some l →
          l.token = unaryToken n ∧ l.resource = r')
  ∧ (∀ i j : Nat, i ≠ j → unaryToken i ≠ unaryToken j)
  ∧ (TryLockAt unaryToken 0 (fun _ => none) Comm.deliver "res").lock
      = some { resource := "res", token := unaryToken 0 }
  ∧ (TryLockAt unaryToken 1
        (Unlock (TryLockAt unaryToken 0 (fun _ => none) Comm.deliver "res").store
          Comm.deliver { resource := "res", token := unaryToken 0 }).store
        Comm.deliver "res").lock = some { resource := "res", token := unaryToken 1 } :=
  token_freshness unaryToken unaryToken_injective (fun _ => none) "res" rfl

/-- Claim C8.  Fixed lease TTL: every `SET` command carries the same `EX`
argument, the constant `int64(lockTimeout/time.Second)`; for
`src/redislock.go` (`lockTimeout = 10 * time.Minute`) that is exactly 600
seconds, for `src/unnamed/part_000` (`lockTimeout = 60 * time.Second`)
exactly 60, and in both versions the nanosecond constant divides evenly
into seconds (no rounding loss). -/
theorem lease_ttl_constant :
    (∀ l : Lock, (setCmdOf l).ex = lockTimeoutSeconds)
  ∧ lockTimeoutSeconds = 600
  ∧ lockTimeout % second = 0
  ∧ (∀ l : Lock, (RedislockV2.setCmdOf l).ex = RedislockV2.lockTimeoutSeconds)
  ∧ RedislockV2.lockTimeoutSeconds = 60
  ∧ RedislockV2.lockTimeout % second = 0 := by
  refine ⟨fun l => rfl, ?_, ?_, fun l => rfl, ?_, ?_⟩ <;> decide

/-- Claim C10.  Lock immutability frame: a lock returned by a successful
acquisition is exactly the resource/token record built at acquisition, an
`Unlock` call passes its receiver through unchanged, and therefore after
any number of `Unlock` calls the key and token the next release sends to
the store are exactly those of the acquisition. -/
theorem lock_immutability (st st₀ : Store) (r t : String) (l : Lock) (n : Nat)
    (h : (TryLock st Comm.deliver r t).lock = some l) :
    l = { resource := r, token := t }
  ∧ (unlockIter n st₀ l).2 = l
  ∧ delCmdOf (unlockIter n st₀ l).2 = { key := key r, token := t } := by
  have hl := TryLock_lock_eq st Comm.deliver r t l h
  refine ⟨hl, unlockIter_snd n st₀ l, ?_⟩
  rw [unlockIter_snd n st₀ l, hl]
  rfl

/-- Witness for C10: the lock acquired for `"a"` on the empty store,
released twice. -/
theorem lock_immutability_witness :
    ({ resource := "a", token := "t" } : Lock) = { resource := "a", token := "t" }
  ∧ (unlockIter 2 (fun _ => none) { resource := "a", token := "t" }).2
      = { resource := "a", token := "t" }
  ∧ delCmdOf (unlockIter 2 (fun _ => none) { resource := "a", token := "t" }).2
      = { key := key "a", token := "t" } :=
  lock_immutability (fun _ => none) (fun _ => none) "a" "t"
    { resource := "a", token := "t" } 2 (by decide)

end Redislock

namespace RedislockV2

open Redislock

/-- Claim C9.  Equivalence of the two source versions: the two `tryLock`
result mappings agree on every `(status, err)` pair, hence the two
`TryLock`s return the same store, lock, `ok` and error for every input;
the `SET` commands they issue agree on key, value and `NX` and differ only
in the `EX` constant, 600 seconds versus 60. -/
theorem versions_equivalent :
    (∀ (status : String) (err : Option RErr),
        Redislock.tryLockMap status err = RedislockV2.tryLockMap status err)
  ∧ (∀ (st : Store) (c : Comm) (r t : String),
        (Redislock.TryLock st c r t).store = (RedislockV2.TryLock st c r t).store
      ∧ (Redislock.TryLock st c r t).lock = (RedislockV2.TryLock st c r t).lock
      ∧ (Redislock.TryLock st c r t).ok = (RedislockV2.TryLock st c r t).ok
      ∧ (Redislock.TryLock st c r t).err = (RedislockV2.TryLock st c r t).err)
  ∧ (∀ l : Lock,
        (Redislock.setCmdOf l).key = (RedislockV2.setCmdOf l).key
      ∧ (Redislock.setCmdOf l).value = (RedislockV2.setCmdOf l).value
      ∧ (Redislock.setCmdOf l).nx = (RedislockV2.setCmdOf l).nx
      ∧ (Redislock.setCmdOf l).ex = 600 ∧ (RedislockV2.setCmdOf l).ex = 60) := by
  have h600 : Redislock.lockTimeoutSeconds = 600 := by decide
  have h60 : RedislockV2.lockTimeoutSeconds = 60 := by decide
  refine ⟨?_, ?_, fun l => ⟨rfl, rfl, rfl, h600, h60⟩⟩
  · intro status err
    rcases err with _ | e
    · by_cases hs : status = "OK" <;>
        simp [Redislock.tryLockMap, RedislockV2.tryLockMap, hs, beq_eq_false_iff_ne]
    · rcases e with _ | s <;> simp [Redislock.tryLockMap, RedislockV2.tryLockMap]
  · intro st c r t
    cases c with
    | deliver =>
        by_cases h : st (Redislock.key r) = none
        · rw [TryLock_deliver_absent st r t h, tryLockV2_deliver_absent st r t h]
          exact ⟨rfl, rfl, rfl, rfl⟩
        · rw [TryLock_deliver_present st r t h, tryLockV2_deliver_present st r t h]
          exact ⟨rfl, rfl, rfl, rfl⟩
    | fail e => exact ⟨rfl, rfl, rfl, rfl⟩

end RedislockV2
